import Mathlib

/-
Verification of the Lean Music Organizer script (music_lean.py).

Shallow embedding conventions:
* Python integers are ℕ / ℤ (arbitrary precision, no overflow).
* Python float arithmetic is modelled by exact rational arithmetic on ℚ;
  numeric literals such as 0.15 denote the exact rational 15/100.
* Python int(x) is truncation toward zero (pyInt).
* Python round(x) is round-half-to-even to an integer (roundHalfEven);
  round(x, 1) is round-half-to-even at the tenths place (pyRound1).
* Python str.lower / str.endswith are modelled on the character sequence
  of the string (ASCII lowering, as all extension characters are ASCII).
* The filesystem facts main and launch_picard consult (directory listing,
  os.path.exists, Popen success) are an explicit environment record Env.
-/

namespace MusicOrganizer

/-- Python int(): truncation of a rational toward zero. -/
def pyInt (q : ℚ) : ℤ := if 0 ≤ q then ⌊q⌋ else -⌊-q⌋

/-- Python round() to an integer: nearest integer, ties to even. -/
def roundHalfEven (q : ℚ) : ℤ :=
  if q - ⌊q⌋ < 1/2 then ⌊q⌋
  else if 1/2 < q - ⌊q⌋ then ⌊q⌋ + 1
  else if ⌊q⌋ % 2 = 0 then ⌊q⌋ else ⌊q⌋ + 1

/-- Python round(x, 1): round-half-to-even at the tenths place. -/
def pyRound1 (q : ℚ) : ℚ := (roundHalfEven (q * 10) : ℚ) / 10

/-- Python str.lower() on the character sequence of a string. -/
def pyLower (s : String) : String := String.mk (s.data.map Char.toLower)

/-- Python str.endswith(suff) on the character sequences of the strings. -/
def pyEndsWith (s suff : String) : Bool :=
  if suff.data.length ≤ s.data.length then
    s.data.drop (s.data.length - suff.data.length) == suff.data
  else false

/-- One session record, the dict built by the two simulators
(music_lean.py lines 57-65 and 145-153), fields in dict insertion order. -/
structure SessionRecord where
  session_type : String
  songs_processed : ℕ
  total_time_min : ℚ
  avg_time_per_song_sec : ℚ
  manual_actions_per_song : ℚ
  errors : ℤ
  duplicates : ℤ
deriving DecidableEq

/-- simulate_before_state (music_lean.py lines 34-66): fixed 189 sec per
song, 8 manual actions, errors max(1, int(0.15*n)), duplicates
max(0, int(0.1*n)). -/
def simulate_before_state (file_count : ℕ) : SessionRecord :=
  let avg_time_per_song : ℚ := 189
  let total_time_sec : ℕ := file_count * 189
  let manual_actions : ℚ := 8
  let errors : ℤ := max 1 (pyInt ((file_count : ℚ) * 0.15))
  let duplicates : ℤ := max 0 (pyInt ((file_count : ℚ) * 0.1))
  { session_type := "before"
    songs_processed := file_count
    total_time_min := pyRound1 ((total_time_sec : ℚ) / 60)
    avg_time_per_song_sec := avg_time_per_song
    manual_actions_per_song := manual_actions
    errors := errors
    duplicates := duplicates }

/-- simulate_after_state (music_lean.py lines 124-154): fixed 38 sec per
song, 1.5 manual actions, errors 0 below 10 files else max(0, int(0.01*n)),
duplicates 0. -/
def simulate_after_state (file_count : ℕ) : SessionRecord :=
  let avg_time_per_song : ℚ := 38
  let total_time_sec : ℕ := file_count * 38
  let manual_actions : ℚ := 1.5
  let errors : ℤ := if file_count < 10 then 0 else max 0 (pyInt ((file_count : ℚ) * 0.01))
  let duplicates : ℤ := 0
  { session_type := "after"
    songs_processed := file_count
    total_time_min := pyRound1 ((total_time_sec : ℚ) / 60)
    avg_time_per_song_sec := avg_time_per_song
    manual_actions_per_song := manual_actions
    errors := errors
    duplicates := duplicates }

/-- The CSV field names, in the record's field order (the keys of the dict
passed to csv.DictWriter). -/
def logFields : List String :=
  ["session_type", "songs_processed", "total_time_min", "avg_time_per_song_sec",
   "manual_actions_per_song", "errors", "duplicates"]

/-- One line of the log file: either the header row or a data row. -/
inductive LogLine where
  | header (fields : List String) : LogLine
  | row (r : SessionRecord) : LogLine
deriving DecidableEq

/-- log_data (music_lean.py lines 159-167): open the log in append mode,
write the header first iff the file did not exist, then append the row.
The file is `none` when absent, `some lines` when present. -/
def log_data (data : SessionRecord) (file : Option (List LogLine)) : List LogLine :=
  match file with
  | none => [LogLine.header logFields, LogLine.row data]
  | some lines => lines ++ [LogLine.row data]

/-- Iterated log_data: append each record of the list in order. -/
def logMany (file : Option (List LogLine)) (rs : List SessionRecord) : Option (List LogLine) :=
  rs.foldl (fun f r => some (log_data r f)) file

/-- Arithmetic mean of a list of rationals (pandas Series.mean). -/
def meanQ (xs : List ℚ) : ℚ := xs.sum / (xs.length : ℚ)

/-- The four per-session-type column means computed by
generate_visualizations. -/
structure MetricMeans where
  avg_time_per_song_sec : ℚ
  manual_actions_per_song : ℚ
  errors : ℚ
  duplicates : ℚ
deriving DecidableEq

/-- Column means of the four charted metrics over a list of rows. -/
def metricMeans (rows : List SessionRecord) : MetricMeans :=
  { avg_time_per_song_sec := meanQ (rows.map fun r => r.avg_time_per_song_sec)
    manual_actions_per_song := meanQ (rows.map fun r => r.manual_actions_per_song)
    errors := meanQ (rows.map fun r => (r.errors : ℚ))
    duplicates := meanQ (rows.map fun r => (r.duplicates : ℚ)) }

/-- Observable outcome of generate_visualizations: early return on a
missing log, early return on missing before/after rows, or a chart of the
two mean vectors. -/
inductive VizResult where
  | noLog : VizResult
  | insufficientData : VizResult
  | chart (before_means after_means : MetricMeans) : VizResult
deriving DecidableEq

/-- generate_visualizations (music_lean.py lines 172-189, chart rendering
abstracted to its data): return early when the log file is missing or one
session type has no rows, else chart the per-type column means over all
rows of the log. -/
def generate_visualizations (log : Option (List SessionRecord)) : VizResult :=
  match log with
  | none => VizResult.noLog
  | some rows =>
    let before := rows.filter fun r => r.session_type == "before"
    let after := rows.filter fun r => r.session_type == "after"
    if before.length = 0 ∨ after.length = 0 then VizResult.insufficientData
    else VizResult.chart (metricMeans before) (metricMeans after)

/-- The candidate Picard locations probed by launch_picard
(music_lean.py lines 86-93), in probe order. -/
def picard_paths : List String :=
  ["C:\\Program Files\\MusicBrainz Picard\\picard.exe",
   "C:\\Program Files (x86)\\MusicBrainz Picard\\picard.exe",
   "/Applications/MusicBrainz Picard.app/Contents/MacOS/picard",
   "/usr/bin/picard",
   "picard"]

/-- The acceptance test of the probing loop:
os.path.exists(path) or path == "picard". -/
def pickAccept (pathExists : String → Bool) (path : String) : Bool :=
  pathExists path || (path == "picard")

/-- The probing loop of launch_picard (lines 95-99): first candidate
passing the acceptance test, None when none does. -/
def findPicard (pathExists : String → Bool) : Option String :=
  picard_paths.find? (pickAccept pathExists)

/-- Observable outcome of launch_picard: sys.exit(1) in the not-found
branch, sys.exit(1) when Popen raises, or a successful launch. -/
inductive LaunchResult where
  | exitNotFound : LaunchResult
  | exitLaunchFail : LaunchResult
  | launched : LaunchResult
deriving DecidableEq

/-- The branch structure of launch_picard after the probing loop
(lines 101-115). -/
def launchOutcome (picard_cmd : Option String) (launchOk : Bool) : LaunchResult :=
  match picard_cmd with
  | none => LaunchResult.exitNotFound
  | some _ => if launchOk then LaunchResult.launched else LaunchResult.exitLaunchFail

/-- The filesystem facts the script consults: the (non-recursive) listing
of MUSIC_INPUT_DIR, the os.path.exists predicate, and whether
subprocess.Popen succeeds. -/
structure Env where
  inputFiles : List String
  pathExists : String → Bool
  launchOk : Bool

/-- launch_picard (music_lean.py lines 70-120) as a function of the
environment. -/
def launch_picard (env : Env) : LaunchResult :=
  launchOutcome (findPicard env.pathExists) env.launchOk

/-- The extension allow-list of main's file enumeration (line 240). -/
def music_extensions : List String := [".mp3", ".flac", ".m4a", ".wav"]

/-- The filter of main's list comprehension:
f.lower().endswith(('.mp3', '.flac', '.m4a', '.wav')). -/
def isMusicFile (f : String) : Bool :=
  music_extensions.any fun ext => pyEndsWith (pyLower f) ext

/-- len([f for f in os.listdir(MUSIC_INPUT_DIR) if ...]) (lines 240-241). -/
def countMusicFiles (files : List String) : ℕ := (files.filter isMusicFile).length

/-- The four ways main can end: sys.exit(1) with no files, sys.exit(1)
inside launch_picard's not-found branch, sys.exit(1) on a launch failure,
or running to the end of main. -/
inductive MainOutcome where
  | exitNoFiles : MainOutcome
  | exitPicardNotFound : MainOutcome
  | exitLaunchFail : MainOutcome
  | completed : MainOutcome
deriving DecidableEq

/-- The process exit status of each outcome: sys.exit(1) on the three
failure paths, implicit status 0 at the end of the script. -/
def exitCode : MainOutcome → ℕ
  | MainOutcome.exitNoFiles => 1
  | MainOutcome.exitPicardNotFound => 1
  | MainOutcome.exitLaunchFail => 1
  | MainOutcome.completed => 0

/-- time_saved_percent (line 264):
round((1 - after.avg_time_per_song_sec / before.avg_time_per_song_sec) * 100). -/
def time_saved_percent (before_data after_data : SessionRecord) : ℤ :=
  roundHalfEven ((1 - after_data.avg_time_per_song_sec / before_data.avg_time_per_song_sec) * 100)

/-- error_reduction_percent (line 265):
round((1 - after.errors / max(1, before.errors)) * 100). -/
def error_reduction_percent (before_data after_data : SessionRecord) : ℤ :=
  roundHalfEven ((1 - (after_data.errors : ℚ) / ((max 1 before_data.errors : ℤ) : ℚ)) * 100)

/-- What a run of main leaves behind: its outcome, the records it logged
in logging order, and the summary percentages it printed (computed from
this run's two records). -/
structure RunResult where
  outcome : MainOutcome
  logged : List SessionRecord
  summary : Option (ℤ × ℤ)
deriving DecidableEq

/-- main (music_lean.py lines 233-276): count music files, exit 1 when
none; simulate and log the before record; bridge to Picard (may exit 1);
simulate and log the after record; print the summary percentages. -/
def main (env : Env) : RunResult :=
  let file_count := countMusicFiles env.inputFiles
  if file_count = 0 then
    { outcome := MainOutcome.exitNoFiles, logged := [], summary := none }
  else
    let before_data := simulate_before_state file_count
    match launch_picard env with
    | LaunchResult.exitNotFound =>
      { outcome := MainOutcome.exitPicardNotFound, logged := [before_data], summary := none }
    | LaunchResult.exitLaunchFail =>
      { outcome := MainOutcome.exitLaunchFail, logged := [before_data], summary := none }
    | LaunchResult.launched =>
      let after_data := simulate_after_state file_count
      { outcome := MainOutcome.completed
        logged := [before_data, after_data]
        summary := some (time_saved_percent before_data after_data,
                         error_reduction_percent before_data after_data) }

lemma pyInt_eq_floor (q : ℚ) (h : 0 ≤ q) : pyInt q = ⌊q⌋ := by
  simp [pyInt, h]

lemma before_errors_eq (n : ℕ) :
    (simulate_before_state n).errors = max 1 ⌊(n : ℚ) * 0.15⌋ := by
  show max 1 (pyInt ((n : ℚ) * 0.15)) = _
  rw [pyInt_eq_floor _ (by positivity)]

lemma before_duplicates_eq (n : ℕ) :
    (simulate_before_state n).duplicates = max 0 ⌊(n : ℚ) * 0.1⌋ := by
  show max 0 (pyInt ((n : ℚ) * 0.1)) = _
  rw [pyInt_eq_floor _ (by positivity)]

lemma after_errors_eq (n : ℕ) :
    (simulate_after_state n).errors
      = if n < 10 then 0 else max 0 ⌊(n : ℚ) * 0.01⌋ := by
  show (if n < 10 then 0 else max 0 (pyInt ((n : ℚ) * 0.01))) = _
  by_cases h : n < 10
  · rw [if_pos h, if_pos h]
  · rw [if_neg h, if_neg h, pyInt_eq_floor _ (by positivity)]

/-- Claim C10: for every file_count, the before record's
manual_actions_per_song is the constant 8. -/
theorem C10_before_manual_actions (n : ℕ) :
    (simulate_before_state n).manual_actions_per_song = 8 := rfl

/-- Claim C1: for every file_count > 0, the before record has
errors = max(1, floor(0.15 * file_count)) and
duplicates = max(0, floor(0.10 * file_count)). -/
theorem C1_before_rates (n : ℕ) (hn : 0 < n) :
    (simulate_before_state n).errors = max 1 ⌊(0.15 : ℚ) * (n : ℚ)⌋ ∧
    (simulate_before_state n).duplicates = max 0 ⌊(0.10 : ℚ) * (n : ℚ)⌋ := by
  have h10 : (0.10 : ℚ) = 0.1 := by norm_num
  constructor
  · rw [before_errors_eq, mul_comm]
  · rw [before_duplicates_eq, mul_comm, h10]

theorem C1_before_rates_witness :
    0 < 3 ∧
    ((simulate_before_state 3).errors = max 1 ⌊(0.15 : ℚ) * (3 : ℕ)⌋ ∧
     (simulate_before_state 3).duplicates = max 0 ⌊(0.10 : ℚ) * (3 : ℕ)⌋) :=
  ⟨by decide, C1_before_rates 3 (by decide)⟩

/-- Claim C2: for every file_count > 0, the after record has duplicates 0,
errors 0 below 10 files and max(0, floor(0.01 * file_count)) otherwise; in
particular errors 0 at file_count 10 and errors 1 at file_count 150. -/
theorem C2_after_rates (n : ℕ) (hn : 0 < n) :
    (simulate_after_state n).duplicates = 0 ∧
    (n < 10 → (simulate_after_state n).errors = 0) ∧
    (10 ≤ n → (simulate_after_state n).errors = max 0 ⌊(0.01 : ℚ) * (n : ℚ)⌋) ∧
    (simulate_after_state 10).errors = 0 ∧
    (simulate_after_state 150).errors = 1 := by
  refine ⟨rfl, ?_, ?_, ?_, ?_⟩
  · intro h
    rw [after_errors_eq, if_pos h]
  · intro h
    rw [after_errors_eq, if_neg (by omega), mul_comm]
  · rw [after_errors_eq, if_neg (by omega)]
    have h : ⌊((10 : ℕ) : ℚ) * 0.01⌋ = 0 := by
      rw [Int.floor_eq_iff]
      push_cast
      norm_num
    rw [h]
    decide
  · rw [after_errors_eq, if_neg (by omega)]
    have h : ⌊((150 : ℕ) : ℚ) * 0.01⌋ = 1 := by
      rw [Int.floor_eq_iff]
      push_cast
      norm_num
    rw [h]
    decide

theorem C2_after_rates_witness :
    0 < 5 ∧
    ((simulate_after_state 5).duplicates = 0 ∧
     (5 < 10 → (simulate_after_state 5).errors = 0) ∧
     (10 ≤ 5 → (simulate_after_state 5).errors = max 0 ⌊(0.01 : ℚ) * (5 : ℕ)⌋) ∧
     (simulate_after_state 10).errors = 0 ∧
     (simulate_after_state 150).errors = 1) :=
  ⟨by decide, C2_after_rates 5 (by decide)⟩

/-- Claim C3: both simulators set total_time_min to
round(file_count * avg_time_per_song_sec / 60, 1), with
avg_time_per_song_sec 189 before and 38 after; in particular the before
record at file_count 20 has total_time_min 63.0. -/
theorem C3_total_time (n : ℕ) (hn : 0 < n) :
    (simulate_before_state n).total_time_min
      = pyRound1 ((n : ℚ) * (simulate_before_state n).avg_time_per_song_sec / 60) ∧
    (simulate_after_state n).total_time_min
      = pyRound1 ((n : ℚ) * (simulate_after_state n).avg_time_per_song_sec / 60) ∧
    (simulate_before_state n).avg_time_per_song_sec = 189 ∧
    (simulate_after_state n).avg_time_per_song_sec = 38 ∧
    (simulate_before_state 20).total_time_min = 63 := by
  refine ⟨?_, ?_, rfl, rfl, ?_⟩
  · show pyRound1 (((n * 189 : ℕ) : ℚ) / 60) = pyRound1 ((n : ℚ) * 189 / 60)
    congr 1
    push_cast
    ring
  · show pyRound1 (((n * 38 : ℕ) : ℚ) / 60) = pyRound1 ((n : ℚ) * 38 / 60)
    congr 1
    push_cast
    ring
  · show pyRound1 (((20 * 189 : ℕ) : ℚ) / 60) = 63
    have h1 : ((20 * 189 : ℕ) : ℚ) / 60 = 63 := by
      push_cast
      norm_num
    rw [h1, pyRound1]
    have h2 : (63 : ℚ) * 10 = 630 := by norm_num
    rw [h2]
    have hf : ⌊(630 : ℚ)⌋ = 630 := by
      simp
    have h3 : roundHalfEven 630 = 630 := by
      rw [roundHalfEven, hf]
      norm_num
    rw [h3]
    norm_num

theorem C3_total_time_witness :
    0 < 20 ∧
    ((simulate_before_state 20).total_time_min
       = pyRound1 ((20 : ℕ) * (simulate_before_state 20).avg_time_per_song_sec / 60) ∧
     (simulate_after_state 20).total_time_min
       = pyRound1 ((20 : ℕ) * (simulate_after_state 20).avg_time_per_song_sec / 60) ∧
     (simulate_before_state 20).avg_time_per_song_sec = 189 ∧
     (simulate_after_state 20).avg_time_per_song_sec = 38 ∧
     (simulate_before_state 20).total_time_min = 63) :=
  ⟨by decide, C3_total_time 20 (by decide)⟩

lemma filter_replicate_of_true {p : String → Bool} {x : String} (h : p x = true) (n : ℕ) :
    (List.replicate n x).filter p = List.replicate n x := by
  induction n with
  | zero => rfl
  | succ k ih => simp [List.replicate_succ, List.filter_cons, h, ih]

/-- An environment whose input directory holds one hundred mp3 files, with
Picard resolved through the bare-name fallback and launching successfully. -/
def env100 : Env :=
  { inputFiles := List.replicate 100 "a.mp3"
    pathExists := fun _ => false
    launchOk := true }

lemma before_errors_100 : (simulate_before_state 100).errors = 15 := by
  rw [before_errors_eq]
  have h : ⌊((100 : ℕ) : ℚ) * 0.15⌋ = 15 := by
    rw [Int.floor_eq_iff]
    push_cast
    norm_num
  rw [h]
  decide

lemma before_duplicates_100 : (simulate_before_state 100).duplicates = 10 := by
  rw [before_duplicates_eq]
  have h : ⌊((100 : ℕ) : ℚ) * 0.1⌋ = 10 := by
    rw [Int.floor_eq_iff]
    push_cast
    norm_num
  rw [h]
  decide

lemma after_errors_100 : (simulate_after_state 100).errors = 1 := by
  rw [after_errors_eq, if_neg (by omega)]
  have h : ⌊((100 : ℕ) : ℚ) * 0.01⌋ = 1 := by
    rw [Int.floor_eq_iff]
    push_cast
    norm_num
  rw [h]
  decide

lemma time_saved_100 :
    time_saved_percent (simulate_before_state 100) (simulate_after_state 100) = 80 := by
  show roundHalfEven ((1 - (38 : ℚ) / 189) * 100) = 80
  have h1 : (1 - (38 : ℚ) / 189) * 100 = 15100 / 189 := by norm_num
  rw [h1, roundHalfEven]
  have hf : ⌊(15100 / 189 : ℚ)⌋ = 79 := by
    rw [Int.floor_eq_iff]
    norm_num
  rw [hf]
  norm_num

lemma error_reduction_100 :
    error_reduction_percent (simulate_before_state 100) (simulate_after_state 100) = 93 := by
  rw [error_reduction_percent, after_errors_100, before_errors_100]
  have hm : max (1 : ℤ) 15 = 15 := by decide
  rw [hm]
  have h1 : (1 - ((1 : ℤ) : ℚ) / ((15 : ℤ) : ℚ)) * 100 = 1400 / 15 := by
    push_cast
    norm_num
  rw [h1, roundHalfEven]
  have hf : ⌊(1400 / 15 : ℚ)⌋ = 93 := by
    rw [Int.floor_eq_iff]
    norm_num
  rw [hf]
  norm_num

/-- Claim C4: main computes the summary percentages from the two records
of this run by round((1 - after.avg/before.avg)*100) and
round((1 - after.errors/max(1, before.errors))*100); at file_count 100 the
before record has errors 15, duplicates 10, avg 189, the after record has
errors 1, duplicates 0, avg 38, and the summary is 80% time saved and 93%
error reduction. -/
theorem C4_summary_percentages :
    (simulate_before_state 100).errors = 15 ∧
    (simulate_before_state 100).duplicates = 10 ∧
    (simulate_before_state 100).avg_time_per_song_sec = 189 ∧
    (simulate_after_state 100).errors = 1 ∧
    (simulate_after_state 100).duplicates = 0 ∧
    (simulate_after_state 100).avg_time_per_song_sec = 38 ∧
    main env100 =
      { outcome := MainOutcome.completed
        logged := [simulate_before_state 100, simulate_after_state 100]
        summary := some (time_saved_percent (simulate_before_state 100) (simulate_after_state 100),
                         error_reduction_percent (simulate_before_state 100) (simulate_after_state 100)) } ∧
    time_saved_percent (simulate_before_state 100) (simulate_after_state 100) = 80 ∧
    error_reduction_percent (simulate_before_state 100) (simulate_after_state 100) = 93 := by
  have hcount : countMusicFiles env100.inputFiles = 100 := by
    show ((List.replicate 100 "a.mp3").filter isMusicFile).length = 100
    rw [filter_replicate_of_true (by decide) 100, List.length_replicate]
  have hfind : findPicard env100.pathExists = some "picard" := by decide
  have hlaunch : launch_picard env100 = LaunchResult.launched := by
    rw [launch_picard, hfind]
    rfl
  have hmain : main env100 =
      { outcome := MainOutcome.completed
        logged := [simulate_before_state 100, simulate_after_state 100]
        summary := some (time_saved_percent (simulate_before_state 100) (simulate_after_state 100),
                         error_reduction_percent (simulate_before_state 100) (simulate_after_state 100)) } := by
    simp only [main, hcount, hlaunch]
    norm_num
  exact ⟨before_errors_100, before_duplicates_100, rfl, after_errors_100, rfl, rfl,
         hmain, time_saved_100, error_reduction_100⟩

lemma logMany_some (rs : List SessionRecord) :
    ∀ lines : List LogLine, logMany (some lines) rs = some (lines ++ rs.map LogLine.row) := by
  induction rs with
  | nil =>
    intro lines
    simp [logMany]
  | cons r rs ih =>
    intro lines
    show logMany (some (lines ++ [LogLine.row r])) rs = _
    rw [ih (lines ++ [LogLine.row r])]
    simp

/-- Claim C5: log_data on a missing file writes the header (the field list
in record order) then the row; on an existing file it appends the row
unchanged after the existing lines; appending a nonempty batch of records
to a missing log yields the header followed by exactly those rows in
insertion order. -/
theorem C5_logger_append_only :
    (∀ r : SessionRecord, log_data r none = [LogLine.header logFields, LogLine.row r]) ∧
    (∀ (r : SessionRecord) (lines : List LogLine),
        log_data r (some lines) = lines ++ [LogLine.row r]) ∧
    (∀ (r : SessionRecord) (rs : List SessionRecord),
        logMany none (r :: rs)
          = some (LogLine.header logFields :: (r :: rs).map LogLine.row)) := by
  refine ⟨fun r => rfl, fun r lines => rfl, ?_⟩
  intro r rs
  show logMany (some [LogLine.header logFields, LogLine.row r]) rs
      = some (LogLine.header logFields :: (r :: rs).map LogLine.row)
  rw [logMany_some rs]
  simp

/-- Claim C6: generate_visualizations returns early on a missing log and
when one of the session types has no rows, and otherwise charts the
per-session-type arithmetic means of the four metrics over all rows. -/
theorem C6_report_generator (rows : List SessionRecord) :
    generate_visualizations none = VizResult.noLog ∧
    ((rows.filter fun r => r.session_type == "before").length = 0 ∨
        (rows.filter fun r => r.session_type == "after").length = 0 →
      generate_visualizations (some rows) = VizResult.insufficientData) ∧
    (0 < (rows.filter fun r => r.session_type == "before").length →
      0 < (rows.filter fun r => r.session_type == "after").length →
      generate_visualizations (some rows)
        = VizResult.chart (metricMeans (rows.filter fun r => r.session_type == "before"))
            (metricMeans (rows.filter fun r => r.session_type == "after"))) ∧
    (∀ sel : List SessionRecord,
      (metricMeans sel).avg_time_per_song_sec
          = (sel.map fun r => r.avg_time_per_song_sec).sum / (sel.length : ℚ) ∧
      (metricMeans sel).manual_actions_per_song
          = (sel.map fun r => r.manual_actions_per_song).sum / (sel.length : ℚ) ∧
      (metricMeans sel).errors = (sel.map fun r => (r.errors : ℚ)).sum / (sel.length : ℚ) ∧
      (metricMeans sel).duplicates
          = (sel.map fun r => (r.duplicates : ℚ)).sum / (sel.length : ℚ)) := by
  refine ⟨rfl, ?_, ?_, ?_⟩
  · intro h
    simp only [generate_visualizations]
    rw [if_pos h]
  · intro h1 h2
    simp only [generate_visualizations]
    rw [if_neg (by omega)]
  · intro sel
    refine ⟨?_, ?_, ?_, ?_⟩ <;> simp [metricMeans, meanQ]

theorem C6_report_generator_witness :
    generate_visualizations (some [simulate_before_state 1]) = VizResult.insufficientData ∧
    generate_visualizations (some [simulate_before_state 1, simulate_after_state 1])
      = VizResult.chart
          (metricMeans
            ([simulate_before_state 1, simulate_after_state 1].filter
              fun r => r.session_type == "before"))
          (metricMeans
            ([simulate_before_state 1, simulate_after_state 1].filter
              fun r => r.session_type == "after")) :=
  ⟨(C6_report_generator [simulate_before_state 1]).2.1 (Or.inr (by decide)),
   (C6_report_generator [simulate_before_state 1, simulate_after_state 1]).2.2.1
     (by decide) (by decide)⟩

lemma findPicard_isSome (pe : String → Bool) : ∃ cmd, findPicard pe = some cmd := by
  have h : (findPicard pe).isSome := by
    rw [findPicard, List.find?_isSome]
    exact ⟨"picard", by simp [picard_paths], by simp [pickAccept]⟩
  exact Option.isSome_iff_exists.mp h

lemma main_outcome_no_files {env : Env} (h0 : countMusicFiles env.inputFiles = 0) :
    main env = { outcome := MainOutcome.exitNoFiles, logged := [], summary := none } := by
  simp only [main, h0, if_pos]

lemma main_outcome_launch_fail {env : Env} (h0 : ¬countMusicFiles env.inputFiles = 0)
    (hb : env.launchOk = false) :
    (main env).outcome = MainOutcome.exitLaunchFail := by
  obtain ⟨cmd, hcmd⟩ := findPicard_isSome env.pathExists
  simp [main, launch_picard, hcmd, launchOutcome, hb, h0]

lemma main_outcome_completed {env : Env} (h0 : ¬countMusicFiles env.inputFiles = 0)
    (hb : env.launchOk = true) :
    (main env).outcome = MainOutcome.completed := by
  obtain ⟨cmd, hcmd⟩ := findPicard_isSome env.pathExists
  simp [main, launch_picard, hcmd, launchOutcome, hb, h0]

/-- Claim C7: the process exit status is 0 exactly on full completion, and
1 on the three failure paths: no input files, Picard not located (the
sys.exit(1) of the not-found branch), and a failed launch. -/
theorem C7_exit_status (env : Env) :
    (exitCode (main env).outcome = 0 ↔ (main env).outcome = MainOutcome.completed) ∧
    ((main env).outcome = MainOutcome.completed
        ↔ 0 < countMusicFiles env.inputFiles ∧ env.launchOk = true) ∧
    ((main env).outcome = MainOutcome.exitNoFiles ↔ countMusicFiles env.inputFiles = 0) ∧
    ((main env).outcome = MainOutcome.exitLaunchFail
        ↔ 0 < countMusicFiles env.inputFiles ∧ env.launchOk = false) ∧
    (∀ b : Bool, launchOutcome none b = LaunchResult.exitNotFound) ∧
    exitCode MainOutcome.exitNoFiles = 1 ∧
    exitCode MainOutcome.exitPicardNotFound = 1 ∧
    exitCode MainOutcome.exitLaunchFail = 1 ∧
    exitCode MainOutcome.completed = 0 := by
  by_cases h0 : countMusicFiles env.inputFiles = 0
  · have hm : (main env).outcome = MainOutcome.exitNoFiles := by
      rw [main_outcome_no_files h0]
    refine ⟨?_, ?_, ?_, ?_, fun b => rfl, rfl, rfl, rfl, rfl⟩ <;>
      rw [hm] <;> simp [exitCode, h0]
  · have hpos : 0 < countMusicFiles env.inputFiles := Nat.pos_of_ne_zero h0
    cases hb : env.launchOk
    · have hm : (main env).outcome = MainOutcome.exitLaunchFail :=
        main_outcome_launch_fail h0 hb
      refine ⟨?_, ?_, ?_, ?_, fun b => rfl, rfl, rfl, rfl, rfl⟩ <;>
        rw [hm] <;> simp [exitCode, h0, hpos]
    · have hm : (main env).outcome = MainOutcome.completed :=
        main_outcome_completed h0 hb
      refine ⟨?_, ?_, ?_, ?_, fun b => rfl, rfl, rfl, rfl, rfl⟩ <;>
        rw [hm] <;> simp [exitCode, h0, hpos]

/-- Claim C8: main counts exactly the files whose name ends
case-insensitively in .mp3, .flac, .m4a or .wav, and on a zero count it
exits with the no-files outcome having logged nothing and printed no
summary. -/
theorem C8_file_enumeration (env : Env) :
    (∀ f : String, isMusicFile f
        = (pyEndsWith (pyLower f) ".mp3" || pyEndsWith (pyLower f) ".flac" ||
           pyEndsWith (pyLower f) ".m4a" || pyEndsWith (pyLower f) ".wav")) ∧
    countMusicFiles env.inputFiles = (env.inputFiles.filter isMusicFile).length ∧
    ((main env).outcome = MainOutcome.exitNoFiles ↔ countMusicFiles env.inputFiles = 0) ∧
    (countMusicFiles env.inputFiles = 0 →
      main env = { outcome := MainOutcome.exitNoFiles, logged := [], summary := none } ∧
      exitCode (main env).outcome = 1) ∧
    countMusicFiles ["Song.MP3", "b.FlAc", "c.m4a", "d.WAV", "readme.txt",
                     "e.mp3.bak", "f.wav.old"] = 4 := by
  refine ⟨?_, rfl, ?_, ?_, by decide⟩
  · intro f
    simp [isMusicFile, music_extensions, Bool.or_assoc]
  · by_cases h0 : countMusicFiles env.inputFiles = 0
    · have hm : (main env).outcome = MainOutcome.exitNoFiles := by
        rw [main_outcome_no_files h0]
      simp [hm, h0]
    · cases hb : env.launchOk
      · have hm : (main env).outcome = MainOutcome.exitLaunchFail :=
          main_outcome_launch_fail h0 hb
        simp [hm, h0]
      · have hm : (main env).outcome = MainOutcome.completed :=
          main_outcome_completed h0 hb
        simp [hm, h0]
  · intro h0
    refine ⟨main_outcome_no_files h0, ?_⟩
    rw [main_outcome_no_files h0]
    rfl

/-- An environment whose input directory is empty. -/
def envEmpty : Env :=
  { inputFiles := [], pathExists := fun _ => false, launchOk := true }

theorem C8_file_enumeration_witness :
    countMusicFiles envEmpty.inputFiles = 0 ∧
    (main envEmpty = { outcome := MainOutcome.exitNoFiles, logged := [], summary := none } ∧
     exitCode (main envEmpty).outcome = 1) :=
  ⟨rfl, (C8_file_enumeration envEmpty).2.2.2.1 rfl⟩

/-- Claim C9: the probing loop of launch_picard always selects a command:
the final candidate "picard" passes the acceptance test unconditionally,
so picard_cmd is never None and the not-found branch is unreachable. -/
theorem C9_not_found_branch_unreachable :
    (∀ pe : String → Bool, pickAccept pe "picard" = true) ∧
    (∀ pe : String → Bool, ∃ cmd, findPicard pe = some cmd) ∧
    (∀ env : Env, launch_picard env ≠ LaunchResult.exitNotFound) ∧
    (∀ env : Env, (main env).outcome ≠ MainOutcome.exitPicardNotFound) := by
  refine ⟨fun pe => by simp [pickAccept], findPicard_isSome, ?_, ?_⟩
  · intro env
    obtain ⟨cmd, hcmd⟩ := findPicard_isSome env.pathExists
    cases hb : env.launchOk <;> simp [launch_picard, hcmd, launchOutcome, hb]
  · intro env
    by_cases h0 : countMusicFiles env.inputFiles = 0
    · rw [main_outcome_no_files h0]
      simp
    · cases hb : env.launchOk
      · rw [main_outcome_launch_fail h0 hb]
        simp
      · rw [main_outcome_completed h0 hb]
        simp

end MusicOrganizer
